import Mathlib

/-
  Verification development for the FormChippy slide-navigation engine
  (src/unnamed/part_000, class FormChippy).

  The navigation core is embedded as a small-step event system:
  `goToSlide` is translated statement by statement from the source
  (bounds check, lazy `_navigationState` init, clearing of the pending
  timer, the debounce/jitter check with its bounded de-duplicated queue,
  the timestamp/inProgress update, the redundant-index skip, and the
  admission branch that commits the position tracker and schedules the
  first animation-frame callback).  Deferred work (the two
  `requestAnimationFrame` callbacks, the completion `setTimeout`, the
  drain timers) is represented by scheduled tasks carried in the state;
  an external event either issues a request or fires one scheduled task.
  Times are naturals carried by the events (`Date.now()` readings);
  timer *delays* are not modelled — any firing order can be replayed,
  which over-approximates the real single-threaded event loop.
-/

namespace FormChippy

/-- Debug-log records written by `this.debug.info` inside `goToSlide`:
`navStart from to` mirrors the "NAVIGATION START" record written exactly
when a request is admitted, `queued i` mirrors the "JITTER PREVENTION"
record written when a request is enqueued. -/
inductive LogEntry where
  | navStart (fromIndex toIndex : Nat)
  | queued (index : Nat)
deriving DecidableEq

/-- Events dispatched/triggered by the engine: `formchippy:slideChange`
(dispatched in `_updateActiveSlide`, carrying the 1-based slide number),
the `navigationComplete` trigger, and `formchippy:destroy`. -/
inductive FormEvent where
  | slideChange (currentSlide totalSlides : Nat)
  | navigationComplete (fromIndex toIndex : Nat)
  | destroyEvent
deriving DecidableEq

/-- `this._slidePositionTracker` (source lines 639-658). -/
structure Tracker where
  currentIndex : Nat
  maxVisitedIndex : Nat
  history : List Nat
deriving DecidableEq

/-- The tracker as lazily initialised by `goToSlide`:
`{ currentIndex: 0, maxVisitedIndex: 0, history: [0] }`. -/
def initialTracker : Tracker :=
  { currentIndex := 0, maxVisitedIndex := 0, history := [0] }

/-- `this._navigationState` (source lines 565-574).  `pending` holds the
identifier of the currently owned timer, if any. -/
structure NavState where
  lastTime : Nat
  pending : Option Nat
  debounceTime : Nat
  inProgress : Bool
  queue : List Nat
  maxQueueSize : Nat
deriving DecidableEq

/-- The navigation state as lazily initialised by `goToSlide`. -/
def initialNavState : NavState :=
  { lastTime := 0, pending := none, debounceTime := 500,
    inProgress := false, queue := [], maxQueueSize := 3 }

/-- Deferred callbacks created by the pipeline:
`raf1` is the outer `requestAnimationFrame` body (slide classes, UI
updates, `_updateActiveSlide`), `raf2` the inner one (scroll + scheduling
of the completion timeout), `completionTimer` the cleanup `setTimeout`,
`drainTimer` the debounce-window drain scheduled when enqueueing, and
`drainGo i` the 50ms re-issue scheduled by the completion handler. -/
inductive TaskKind where
  | raf1 (index oldIndex : Nat) (animate : Bool)
  | raf2 (index oldIndex : Nat) (animate : Bool)
  | completionTimer (index oldIndex : Nat)
  | drainTimer
  | drainGo (index : Nat)
deriving DecidableEq

/-- A scheduled callback together with its timer/frame identifier. -/
structure SchedTask where
  tid : Nat
  kind : TaskKind
deriving DecidableEq

/-- The observable state of one FormChippy instance: the fields of the
class that the navigation core reads or writes, the scheduled callbacks,
and logs of emitted events / debug records. -/
structure FormState where
  totalSlides : Nat
  currentSlideIndex : Nat
  isAnimating : Bool
  nav : Option NavState
  tracker : Option Tracker
  tasks : List SchedTask
  nextId : Nat
  events : List FormEvent
  log : List LogEntry
deriving DecidableEq

/-- State right after `_init` for a form with `totalSlides` slides:
index 0 active, not animating, `_navigationState` and
`_slidePositionTracker` not yet created. -/
def initialState (totalSlides : Nat) : FormState :=
  { totalSlides := totalSlides, currentSlideIndex := 0,
    isAnimating := false, nav := none, tracker := none,
    tasks := [], nextId := 0, events := [], log := [] }

/-- Reads `this._navigationState`, with the lazily-created default. -/
def navOf (s : FormState) : NavState := s.nav.getD initialNavState

/-- Reads `this._slidePositionTracker`, with the lazily-created default. -/
def trackerOf (s : FormState) : Tracker := s.tracker.getD initialTracker

/-- Step 2 of `goToSlide` ("CLEAR PENDING", lines 581-584):
`clearTimeout(pending); pending = null`.  Cancelling removes the task
with that identifier from the scheduled set (a no-op for a timer that
has already fired). -/
def clearPending (tasks : List SchedTask) (nav : NavState) :
    List SchedTask × NavState :=
  match nav.pending with
  | some pid => (tasks.filter (fun t => t.tid != pid), { nav with pending := none })
  | none => (tasks, nav)

/-- `goToSlide(index, animate)` (source lines 554-746), translated
branch by branch; `now` is the `Date.now()` reading taken at entry.
Out-of-range indices return before touching anything; otherwise the
pending timer is cleared, the debounce check either enqueues (bounded,
de-duplicated, scheduling a drain timer) or drops the request, and an
admitted request updates the timestamp, commits the tracker, sets the
current index and animation flag, and schedules the first
animation-frame callback.  The source never throws here: every path is
a plain return. -/
def goToSlide (s : FormState) (index : Int) (animate : Bool) (now : Nat) :
    FormState :=
  if index < 0 ∨ (s.totalSlides : Int) ≤ index then s
  else
    let i : Nat := index.toNat
    let cleared := clearPending s.tasks (navOf s)
    let tasks := cleared.1
    let nav := cleared.2
    if s.isAnimating = true ∧ now - nav.lastTime < nav.debounceTime then
      if nav.queue.length < nav.maxQueueSize ∧ ¬ i ∈ nav.queue then
        { s with
            nav := some { nav with queue := nav.queue ++ [i], pending := some s.nextId },
            tasks := tasks ++ [⟨s.nextId, TaskKind.drainTimer⟩],
            nextId := s.nextId + 1,
            log := s.log ++ [LogEntry.queued i] }
      else
        { s with nav := some nav, tasks := tasks }
    else
      let nav2 := { nav with lastTime := now, inProgress := true }
      if i = s.currentSlideIndex ∧ s.isAnimating = false then
        { s with nav := some nav2, tasks := tasks }
      else
        let oldIndex := s.currentSlideIndex
        let tr := trackerOf s
        let tr2 : Tracker :=
          { currentIndex := i,
            history := tr.history ++ [i],
            maxVisitedIndex := if tr.maxVisitedIndex < i then i else tr.maxVisitedIndex }
        { s with
            nav := some nav2,
            tracker := some tr2,
            currentSlideIndex := i,
            isAnimating := true,
            tasks := tasks ++ [⟨s.nextId, TaskKind.raf1 i oldIndex animate⟩],
            nextId := s.nextId + 1,
            log := s.log ++ [LogEntry.navStart oldIndex i] }

/-- Body of the outer `requestAnimationFrame` callback (lines 664-679):
slide-class toggling and progress/counter/button updates touch no
modelled state; `_updateActiveSlide(index)` dispatches the
`formchippy:slideChange` event unless its re-entrancy guard
(`isAnimating && index !== currentSlideIndex`) fires; finally the inner
frame callback is scheduled. -/
def runRaf1 (s : FormState) (index oldIndex : Nat) (animate : Bool) :
    FormState :=
  let s1 :=
    if s.isAnimating = true ∧ ¬ index = s.currentSlideIndex then s
    else { s with events := s.events ++ [FormEvent.slideChange (index + 1) s.totalSlides] }
  { s1 with
      tasks := s1.tasks ++ [⟨s1.nextId, TaskKind.raf2 index oldIndex animate⟩],
      nextId := s1.nextId + 1 }

/-- Body of the inner `requestAnimationFrame` callback (lines 680-744):
the scroll-alignment resolution and `scrollIntoView` have no modelled
state effect; the cleanup `setTimeout` is scheduled (delay
`animationDelay + 50` when animated, else `50` — delays are not
modelled) and its handle is stored in `_navigationState.pending`. -/
def runRaf2 (s : FormState) (index oldIndex : Nat) (animate : Bool) :
    FormState :=
  let _ := animate
  { s with
      nav := some { navOf s with pending := some s.nextId },
      tasks := s.tasks ++ [⟨s.nextId, TaskKind.completionTimer index oldIndex⟩],
      nextId := s.nextId + 1 }

/-- Body of the completion `setTimeout` (lines 714-743): resets
`isAnimating` and `inProgress`, triggers `navigationComplete`, and if the
queue is non-empty shifts its head and — when it differs from the
current index — schedules the 50ms re-issue (whose handle is *not*
stored anywhere). -/
def runCompletion (s : FormState) (index oldIndex : Nat) : FormState :=
  let nav := navOf s
  let s1 := { s with
      isAnimating := false,
      nav := some { nav with inProgress := false },
      events := s.events ++ [FormEvent.navigationComplete oldIndex index] }
  match (navOf s1).queue with
  | [] => s1
  | nextIndex :: rest =>
      let s2 := { s1 with nav := some { navOf s1 with queue := rest } }
      if ¬ nextIndex = s2.currentSlideIndex then
        { s2 with
            tasks := s2.tasks ++ [⟨s2.nextId, TaskKind.drainGo nextIndex⟩],
            nextId := s2.nextId + 1 }
      else s2

/-- Body of the drain `setTimeout` scheduled when enqueueing (lines
601-607): shift the queue and, when the shifted index exists and differs
from the current index, re-issue it through `goToSlide` (the written
third `true` argument is ignored — `goToSlide` has only two
parameters). -/
def runDrainTimer (s : FormState) (now : Nat) : FormState :=
  match (navOf s).queue with
  | [] => s
  | nextIndex :: rest =>
      let s1 := { s with nav := some { navOf s with queue := rest } }
      if ¬ nextIndex = s1.currentSlideIndex then
        goToSlide s1 (nextIndex : Int) true now
      else s1

/-- Dispatch one fired callback. -/
def runTask (s : FormState) (k : TaskKind) (now : Nat) : FormState :=
  match k with
  | TaskKind.raf1 i old a => runRaf1 s i old a
  | TaskKind.raf2 i old a => runRaf2 s i old a
  | TaskKind.completionTimer i old => runCompletion s i old
  | TaskKind.drainTimer => runDrainTimer s now
  | TaskKind.drainGo i => goToSlide s (i : Int) true now

/-- Destroy the instance (source lines 893-914): removes module
listeners and active classes and dispatches `formchippy:destroy`.
Modelled from the spec: `this.navigation.destroy()` and
`this.progress.destroy()` live in `core/navigation.js` and
`core/progress.js`, which are not present under src/; per the spec they
are glue that detaches button/dot DOM listeners and progress UI, with no
access to the navigation state machine, so they leave `nav`, `tracker`
and the scheduled tasks untouched.  Nothing in `destroy` cancels the
pending timer or clears the queue. -/
def destroy (s : FormState) : FormState :=
  { s with events := s.events ++ [FormEvent.destroyEvent] }

/-- External stimuli: a navigation request (with its `Date.now()`
reading), the firing of one scheduled callback, or a `destroy()` call. -/
inductive Ev where
  | request (index : Int) (animate : Bool) (now : Nat)
  | fire (tid : Nat) (now : Nat)
  | destroyReq
deriving DecidableEq

/-- One scheduler step: firing consumes the named task (if still
scheduled) and runs its body. -/
def step (s : FormState) (e : Ev) : FormState :=
  match e with
  | Ev.request i a now => goToSlide s i a now
  | Ev.fire tid now =>
      match s.tasks.find? (fun t => t.tid == tid) with
      | none => s
      | some t =>
          runTask { s with tasks := s.tasks.filter (fun u => u.tid != tid) } t.kind now
  | Ev.destroyReq => destroy s

/-- Replay a sequence of stimuli. -/
def run (s : FormState) (evs : List Ev) : FormState := evs.foldl step s

/-- Number of admissions recorded in the debug log ("NAVIGATION START"
records). -/
def navStartCount (l : List LogEntry) : Nat :=
  (l.filter fun e => match e with | LogEntry.navStart _ _ => true | _ => false).length

/-- Number of `navigationComplete` events emitted. -/
def completeCount (l : List FormEvent) : Nat :=
  (l.filter fun e => match e with | FormEvent.navigationComplete _ _ => true | _ => false).length

/-- Effective base alignment before the tall-slide downgrade (source
lines 683-689): the slide's `data-fc-slide-position` attribute when it
is present and non-empty (`if (!scrollPosition)`), otherwise
`this.options.scrollPosition || 'center'`. -/
def effectiveScrollPosition (attrPos : Option String) (defaultPos : String) :
    String :=
  match attrPos with
  | some sp => if sp = "" then (if defaultPos = "" then "center" else defaultPos) else sp
  | none => if defaultPos = "" then "center" else defaultPos

/-- Scroll-alignment resolution (source lines 683-708): resolve the base
alignment, then downgrade to `start` when it is `center` or `end` and
`slideHeight > containerHeight * 0.8`.  Heights are integer pixel
readings (`offsetHeight`); the comparison against `0.8 · containerHeight`
is modelled exactly as `5 * slideHeight > 4 * containerHeight`. -/
def resolveScrollPosition (attrPos : Option String) (defaultPos : String)
    (slideHeight containerHeight : Nat) : String :=
  let pos := effectiveScrollPosition attrPos defaultPos
  if (pos = "center" ∨ pos = "end") ∧ 5 * slideHeight > 4 * containerHeight
  then "start" else pos

/-- `isSlideValid(index)` (source lines 843-849): `false` for an
out-of-range index, otherwise the verdict of
`this.validation.validateSlide(this.slides[index])`.  The `Validation`
module is an external collaborator; it is abstracted as the function
`validateSlide` from slide positions to booleans. -/
def isSlideValid (totalSlides : Nat) (validateSlide : Nat → Bool)
    (index : Int) : Bool :=
  if index < 0 ∨ (totalSlides : Int) ≤ index then false
  else validateSlide index.toNat

/-- A DOM element inside a slide, abstracted by exactly the selector
facts `_setupActiveSlideTabbing` reads: whether it matches
`input, select, textarea`; whether it matches
`button, [role="button"], [data-fc-button]`; whether it carries `href`;
and its `tabindex` attribute (modelled as an integer when present).
`eid` is the element's identity; distinct elements of a slide carry
distinct ids. -/
structure Element where
  eid : Nat
  isFormControl : Bool
  isButtonLike : Bool
  hasHref : Bool
  tabindex : Option Int
deriving DecidableEq

/-- `[tabindex]:not([tabindex="-1"])`: the attribute is present and its
value is not `-1`. -/
def isTabStopNotMinusOne (t : Option Int) : Bool :=
  match t with
  | some n => decide (¬ n = -1)
  | none => false

/-- The claim's wording of the same selector: a non-negative explicit
tab stop. -/
def isNonNegTabStop (t : Option Int) : Bool :=
  match t with
  | some n => decide (0 ≤ n)
  | none => false

/-- `slide.querySelectorAll('input, select, textarea')` in document
order (the slide is its element list in document order). -/
def inputsOf (slide : List Element) : List Element :=
  slide.filter (fun e => e.isFormControl)

/-- `slide.querySelectorAll('button, [role="button"], [data-fc-button]')`. -/
def buttonsOf (slide : List Element) : List Element :=
  slide.filter (fun e => e.isButtonLike)

/-- `slide.querySelectorAll('[href], [tabindex]:not([tabindex="-1"])')`. -/
def otherFocusablesOf (slide : List Element) : List Element :=
  slide.filter (fun e => e.hasHref || isTabStopNotMinusOne e.tabindex)

/-- `otherFocusables.filter(el => !inputs.includes(el) && !buttons.includes(el))`
(source lines 422-424). -/
def uniqueOtherFocusablesOf (slide : List Element) : List Element :=
  (otherFocusablesOf slide).filter
    (fun e => decide (¬ e ∈ inputsOf slide ∧ ¬ e ∈ buttonsOf slide))

/-- `[...inputs, ...uniqueOtherFocusables, ...buttons]` (source line
428). -/
def allFocusablesOf (slide : List Element) : List Element :=
  inputsOf slide ++ uniqueOtherFocusablesOf slide ++ buttonsOf slide

/-- The loop `allFocusables.forEach(el => el.setAttribute('tabindex','0'))`
(source lines 434-441), viewed as the resulting slide: members of the
focus set get tab stop 0, all other elements are untouched. -/
def setSlideTabbing (slide : List Element) : List Element :=
  slide.map (fun e =>
    if e ∈ allFocusablesOf slide then { e with tabindex := some 0 } else e)

/-- The focus set exactly as the C8 claim words it: all form inputs in
document order, then all other focusables — links and elements with a
*non-negative* explicit tab stop — that are not already among the inputs
or buttons, then all buttons. -/
def specFocusSetOf (slide : List Element) : List Element :=
  inputsOf slide ++
    slide.filter (fun e =>
      (e.hasHref || isNonNegTabStop e.tabindex) &&
      decide (¬ e ∈ inputsOf slide ∧ ¬ e ∈ buttonsOf slide)) ++
    buttonsOf slide

/-- The amended wording: as `specFocusSetOf`, but an "other focusable"
is a link or an element with an explicit tab stop *different from -1*
(a negative stop such as -2 also counts). -/
def amendedFocusSetOf (slide : List Element) : List Element :=
  inputsOf slide ++
    slide.filter (fun e =>
      (e.hasHref || isTabStopNotMinusOne e.tabindex) &&
      decide (¬ e ∈ inputsOf slide ∧ ¬ e ∈ buttonsOf slide)) ++
    buttonsOf slide

/-- A keyboard listener installed on an element: the id of the element
and the identity of the handler closure. -/
structure HandlerEntry where
  onEid : Nat
  hid : Nat
deriving DecidableEq

/-- Listener bookkeeping owned by the tab/focus-trap code:
`_activeTabHandlers`, `_activeTrapHandlers`, the per-element
`_fcTabHandler` property (an association list, most recent first), the
multiset of actually installed keydown listeners, and a counter giving
each newly created handler closure a fresh identity. -/
structure FocusState where
  activeTabHandlers : List HandlerEntry
  activeTrapHandlers : List HandlerEntry
  fcTabHandler : List (Nat × Nat)
  listeners : List HandlerEntry
  nextHandlerId : Nat
deriving DecidableEq

/-- No handlers installed yet. -/
def initialFocusState : FocusState :=
  { activeTabHandlers := [], activeTrapHandlers := [], fcTabHandler := [],
    listeners := [], nextHandlerId := 0 }

/-- `removeEventListener('keydown', handler)`: removes the listener if
installed, a no-op otherwise. -/
def removeListener (ls : List HandlerEntry) (x : HandlerEntry) :
    List HandlerEntry :=
  match ls with
  | [] => []
  | y :: ys => if y = x then ys else y :: removeListener ys x

/-- Remove every recorded listener of a handler list. -/
def removeAll (ls : List HandlerEntry) (hs : List HandlerEntry) :
    List HandlerEntry :=
  hs.foldl removeListener ls

/-- `_cleanupTabEventListeners` (source lines 484-504): detach every
handler recorded in `_activeTabHandlers` and `_activeTrapHandlers` and
reset both arrays. -/
def cleanupTabEventListeners (st : FocusState) : FocusState :=
  { st with
      listeners :=
        removeAll (removeAll st.listeners st.activeTabHandlers)
          st.activeTrapHandlers,
      activeTabHandlers := [],
      activeTrapHandlers := [] }

/-- Read the `_fcTabHandler` element property. -/
def getProp (m : List (Nat × Nat)) (k : Nat) : Option Nat :=
  (m.find? (fun p => p.1 == k)).map (fun p => p.2)

/-- Overwrite the `_fcTabHandler` element property. -/
def setProp (m : List (Nat × Nat)) (k v : Nat) : List (Nat × Nat) :=
  (k, v) :: m

/-- `_setupFocusTrap` (source lines 512-546): with no focusable element
nothing is installed; otherwise a fresh backward-tab handler goes on the
first focusable and a fresh forward-tab handler on the last, both
recorded in `_activeTrapHandlers`. -/
def setupFocusTrap (focusables : List Element) (st : FocusState) :
    FocusState :=
  match focusables with
  | [] => st
  | first :: rest =>
      let last := (first :: rest).getLast (List.cons_ne_nil first rest)
      { st with
          activeTrapHandlers := st.activeTrapHandlers ++
            [⟨first.eid, st.nextHandlerId⟩, ⟨last.eid, st.nextHandlerId + 1⟩],
          listeners := st.listeners ++
            [⟨first.eid, st.nextHandlerId⟩, ⟨last.eid, st.nextHandlerId + 1⟩],
          nextHandlerId := st.nextHandlerId + 2 }

/-- `_setupActiveSlideTabbing` (source lines 415-478), restricted to its
listener bookkeeping: clean up the previous generation, then — when the
slide has both inputs and buttons — replace the last input's
`_fcTabHandler` (removing the old listener if any) with a fresh handler,
record and install it, and finally install the focus trap over the full
focus set.  (The tab-stop assignment it also performs is modelled by
`setSlideTabbing`.) -/
def setupActiveSlideTabbing (slide : List Element) (st : FocusState) :
    FocusState :=
  let st1 := cleanupTabEventListeners st
  let st2 :=
    match (inputsOf slide).getLast? with
    | some lastInput =>
        if (buttonsOf slide).isEmpty = true then st1
        else
          let sta :=
            match getProp st1.fcTabHandler lastInput.eid with
            | some h =>
                { st1 with
                    listeners := removeListener st1.listeners ⟨lastInput.eid, h⟩ }
            | none => st1
          { sta with
              fcTabHandler := setProp sta.fcTabHandler lastInput.eid sta.nextHandlerId,
              activeTabHandlers := sta.activeTabHandlers ++
                [⟨lastInput.eid, sta.nextHandlerId⟩],
              listeners := sta.listeners ++ [⟨lastInput.eid, sta.nextHandlerId⟩],
              nextHandlerId := sta.nextHandlerId + 1 }
    | none => st1
  setupFocusTrap (allFocusablesOf slide) st2

/-- The queue invariant of the C2 claim, together with the capacity
constant that makes it inductive: the queue holds at most
`maxQueueSize` indices (which stays 3 forever), without duplicates. -/
def queueInvariant (s : FormState) : Prop :=
  (navOf s).queue.length ≤ (navOf s).maxQueueSize ∧
  (navOf s).queue.Nodup ∧
  (navOf s).maxQueueSize = 3

theorem clearPending_lastTime (tasks : List SchedTask) (nav : NavState) :
    (clearPending tasks nav).2.lastTime = nav.lastTime := by
  cases h : nav.pending <;> simp [clearPending, h]

theorem clearPending_debounceTime (tasks : List SchedTask) (nav : NavState) :
    (clearPending tasks nav).2.debounceTime = nav.debounceTime := by
  cases h : nav.pending <;> simp [clearPending, h]

theorem clearPending_queue (tasks : List SchedTask) (nav : NavState) :
    (clearPending tasks nav).2.queue = nav.queue := by
  cases h : nav.pending <;> simp [clearPending, h]

theorem clearPending_maxQueueSize (tasks : List SchedTask) (nav : NavState) :
    (clearPending tasks nav).2.maxQueueSize = nav.maxQueueSize := by
  cases h : nav.pending <;> simp [clearPending, h]

theorem clearPending_pending (tasks : List SchedTask) (nav : NavState) :
    (clearPending tasks nav).2.pending = none := by
  cases h : nav.pending <;> simp [clearPending, h]

theorem navStartCount_append_queued (l : List LogEntry) (i : Nat) :
    navStartCount (l ++ [LogEntry.queued i]) = navStartCount l := by
  simp [navStartCount, List.filter_append]

/-- C5: For every index `i` with `i < 0` or `i >= totalSlides`,
`goToSlide(i)` is rejected by the bounds check before any state is
touched: the state — current index, tracker, queue, timers, timestamps,
flags — is exactly the one before the call, and no event is emitted (the
source path is a plain `return`, so no exception propagates either). -/
theorem out_of_range_noop (s : FormState) (i : Int) (a : Bool) (now : Nat)
    (h : i < 0 ∨ (s.totalSlides : Int) ≤ i) :
    goToSlide s i a now = s := by
  unfold goToSlide
  simp [h]

/-- Witness for `out_of_range_noop`: requesting index 5 on a 3-slide
form leaves the freshly initialised state untouched. -/
theorem out_of_range_noop_witness :
    ((5 : Int) < 0 ∨ ((initialState 3).totalSlides : Int) ≤ 5) ∧
      goToSlide (initialState 3) 5 true 1000 = initialState 3 := by
  refine ⟨by decide, out_of_range_noop (initialState 3) 5 true 1000 (by decide)⟩

/-- C1 counterexample: the claim "once a request is admitted and the
machine enters Animating, no second request is admitted until the first
transition's completion resets isAnimating" is false.  Concretely, on a
3-slide form: `goToSlide(1)` at t=1000 is admitted; its two frame
callbacks fire at t=1016/1033 and schedule the completion timeout
(animated duration 800+50 = 850ms, so it is due at ~1883); a second
request `goToSlide(2)` at t=1600 finds `isAnimating = true` but an
elapsed time of 600ms ≥ the 500ms debounce window, so the jitter check
does not block it: it is admitted (a second "NAVIGATION START" record)
while `isAnimating` is still true and no completion event has ever been
emitted — indeed it cancels the first transition's pending completion
timer, so the first transition never completes at all. -/
theorem single_flight_cex :
    (run (initialState 3) [Ev.request 1 true 1000, Ev.fire 0 1016,
        Ev.fire 1 1033]).isAnimating = true ∧
    navStartCount (run (initialState 3) [Ev.request 1 true 1000, Ev.fire 0 1016,
        Ev.fire 1 1033]).log = 1 ∧
    completeCount (run (initialState 3) [Ev.request 1 true 1000, Ev.fire 0 1016,
        Ev.fire 1 1033]).events = 0 ∧
    navStartCount (run (initialState 3) [Ev.request 1 true 1000, Ev.fire 0 1016,
        Ev.fire 1 1033, Ev.request 2 true 1600]).log = 2 ∧
    completeCount (run (initialState 3) [Ev.request 1 true 1000, Ev.fire 0 1016,
        Ev.fire 1 1033, Ev.request 2 true 1600]).events = 0 ∧
    (run (initialState 3) [Ev.request 1 true 1000, Ev.fire 0 1016,
        Ev.fire 1 1033, Ev.request 2 true 1600]).isAnimating = true ∧
    (run (initialState 3) [Ev.request 1 true 1000, Ev.fire 0 1016,
        Ev.fire 1 1033, Ev.request 2 true 1600]).tasks =
      [⟨3, TaskKind.raf1 2 1 true⟩] := by
  decide

/-- C1 (amended): while the machine is Animating *and* less than the
500ms debounce window has elapsed since the last admission, no request
is admitted: no new "NAVIGATION START" record is produced, the machine
stays Animating, and the tracker, current index and emitted events are
untouched (the request is either enqueued or dropped).  A request
arriving once the debounce window has elapsed may, however, be admitted
even though the previous transition is still in flight. -/
theorem single_flight_amended (s : FormState) (i : Int) (a : Bool) (now : Nat)
    (hAnim : s.isAnimating = true)
    (hDeb : now - (navOf s).lastTime < (navOf s).debounceTime) :
    navStartCount (goToSlide s i a now).log = navStartCount s.log ∧
    (goToSlide s i a now).isAnimating = true ∧
    (goToSlide s i a now).tracker = s.tracker ∧
    (goToSlide s i a now).currentSlideIndex = s.currentSlideIndex ∧
    (goToSlide s i a now).events = s.events := by
  unfold goToSlide
  by_cases hb : i < 0 ∨ (s.totalSlides : Int) ≤ i
  · simp [hb, hAnim]
  · have hcond : s.isAnimating = true ∧
        now - (clearPending s.tasks (navOf s)).2.lastTime <
          (clearPending s.tasks (navOf s)).2.debounceTime := by
      rw [clearPending_lastTime, clearPending_debounceTime]
      exact ⟨hAnim, hDeb⟩
    by_cases hq : (clearPending s.tasks (navOf s)).2.queue.length <
          (clearPending s.tasks (navOf s)).2.maxQueueSize ∧
        ¬ i.toNat ∈ (clearPending s.tasks (navOf s)).2.queue
    · simp [hb, hcond, hq, navStartCount_append_queued, hAnim]
    · simp [hb, hcond, hq, hAnim]

/-- Witness for `single_flight_amended`: a request 100ms after an
admission is not admitted. -/
theorem single_flight_amended_witness :
    (run (initialState 3) [Ev.request 1 true 1000]).isAnimating = true ∧
    1100 - (navOf (run (initialState 3) [Ev.request 1 true 1000])).lastTime <
      (navOf (run (initialState 3) [Ev.request 1 true 1000])).debounceTime ∧
    navStartCount (goToSlide (run (initialState 3) [Ev.request 1 true 1000])
        2 true 1100).log =
      navStartCount (run (initialState 3) [Ev.request 1 true 1000]).log := by
  refine ⟨by decide, by decide, ?_⟩
  exact (single_flight_amended (run (initialState 3) [Ev.request 1 true 1000])
    2 true 1100 (by decide) (by decide)).1

/-- C3: For every admitted request to a valid index `i`, the position
tracker is updated synchronously at admission: `currentIndex` is set to
`i`, `i` is appended to the (append-only) history — which starts at
`[0]`, the initial index, when the tracker is created lazily — and
`maxVisitedIndex` is raised to `i` exactly when `i` exceeds its previous
value, so it is monotonically non-decreasing.  The deferred visual/scroll
pipeline has not run yet at that point: the first frame callback is
merely scheduled and no event has been emitted by the call. -/
theorem commit_on_admission (s : FormState) (i : Int) (a : Bool) (now : Nat)
    (h0 : 0 ≤ i) (h1 : i < (s.totalSlides : Int))
    (h2 : ¬ (s.isAnimating = true ∧
      now - (navOf s).lastTime < (navOf s).debounceTime))
    (h3 : ¬ (i.toNat = s.currentSlideIndex ∧ s.isAnimating = false)) :
    (trackerOf (goToSlide s i a now)).currentIndex = i.toNat ∧
    (trackerOf (goToSlide s i a now)).history =
      (trackerOf s).history ++ [i.toNat] ∧
    ((trackerOf s).maxVisitedIndex < i.toNat →
      (trackerOf (goToSlide s i a now)).maxVisitedIndex = i.toNat) ∧
    (i.toNat ≤ (trackerOf s).maxVisitedIndex →
      (trackerOf (goToSlide s i a now)).maxVisitedIndex =
        (trackerOf s).maxVisitedIndex) ∧
    (trackerOf s).maxVisitedIndex ≤
      (trackerOf (goToSlide s i a now)).maxVisitedIndex ∧
    (s.tracker = none →
      (trackerOf (goToSlide s i a now)).history = [0, i.toNat]) ∧
    (goToSlide s i a now).currentSlideIndex = i.toNat ∧
    (⟨s.nextId, TaskKind.raf1 i.toNat s.currentSlideIndex a⟩ : SchedTask) ∈
      (goToSlide s i a now).tasks ∧
    (goToSlide s i a now).events = s.events := by
  obtain ⟨n, rfl⟩ : ∃ n : Nat, i = (n : Int) :=
    ⟨i.toNat, (Int.toNat_of_nonneg h0).symm⟩
  have hn : ((n : Int)).toNat = n := Int.toNat_natCast n
  have hb : ¬ ((n : Int) < 0 ∨ (s.totalSlides : Int) ≤ (n : Int)) := by omega
  have hb' : ¬ s.totalSlides ≤ n := by omega
  have hcond : ¬ (s.isAnimating = true ∧
      now - (clearPending s.tasks (navOf s)).2.lastTime <
        (clearPending s.tasks (navOf s)).2.debounceTime) := by
    rw [clearPending_lastTime, clearPending_debounceTime]; exact h2
  have h3' : ¬ (n = s.currentSlideIndex ∧ s.isAnimating = false) := by
    simpa [hn] using h3
  have key : goToSlide s (n : Int) a now =
      { s with
          nav := some { (clearPending s.tasks (navOf s)).2 with
            lastTime := now, inProgress := true },
          tracker := some (⟨n,
            (if (trackerOf s).maxVisitedIndex < n then n
              else (trackerOf s).maxVisitedIndex),
            (trackerOf s).history ++ [n]⟩ : Tracker),
          currentSlideIndex := n,
          isAnimating := true,
          tasks := (clearPending s.tasks (navOf s)).1 ++
            [⟨s.nextId, TaskKind.raf1 n s.currentSlideIndex a⟩],
          nextId := s.nextId + 1,
          log := s.log ++ [LogEntry.navStart s.currentSlideIndex n] } := by
    simp [goToSlide, hb, hb', hcond, h3', hn, trackerOf]
  have hcur : (trackerOf (goToSlide s (n : Int) a now)).currentIndex = n := by
    rw [key]; rfl
  have hhist : (trackerOf (goToSlide s (n : Int) a now)).history =
      (trackerOf s).history ++ [n] := by
    rw [key]; rfl
  have hmax : (trackerOf (goToSlide s (n : Int) a now)).maxVisitedIndex =
      if (trackerOf s).maxVisitedIndex < n then n
      else (trackerOf s).maxVisitedIndex := by
    rw [key]; rfl
  simp only [hn]
  refine ⟨hcur, hhist, ?_, ?_, ?_, ?_, ?_, ?_, ?_⟩
  · intro hm; rw [hmax, if_pos hm]
  · intro hm; rw [hmax, if_neg (Nat.not_lt.mpr hm)]
  · rw [hmax]; split
    · omega
    · exact Nat.le_refl _
  · intro hnone
    rw [hhist]
    simp [trackerOf, hnone, initialTracker]
  · rw [key]
  · rw [key]; simp
  · rw [key]

/-- Witness for `commit_on_admission`: the very first request on a fresh
3-slide form, to index 1, commits `currentIndex = 1` and
`history = [0, 1]`. -/
theorem commit_on_admission_witness :
    (0 : Int) ≤ 1 ∧ (1 : Int) < ((initialState 3).totalSlides : Int) ∧
    ¬ ((initialState 3).isAnimating = true ∧
      1000 - (navOf (initialState 3)).lastTime <
        (navOf (initialState 3)).debounceTime) ∧
    ¬ ((1 : Int).toNat = (initialState 3).currentSlideIndex ∧
      (initialState 3).isAnimating = false) ∧
    (trackerOf (goToSlide (initialState 3) 1 true 1000)).currentIndex =
      (1 : Int).toNat ∧
    (trackerOf (goToSlide (initialState 3) 1 true 1000)).history =
      (trackerOf (initialState 3)).history ++ [(1 : Int).toNat] := by
  have h := commit_on_admission (initialState 3) 1 true 1000 (by decide)
    (by decide) (by decide) (by decide)
  exact ⟨by decide, by decide, by decide, by decide, h.1, h.2.1⟩

/-- C4 counterexample: the claim that `request(currentIndex)` while Idle
leaves *all* navigation state unchanged (including timers, timestamps
and the in-progress flag) is false.  Run one full transition to index 1
(admission at t=1000, frames at 1010/1020, completion at 1870), so the
machine is Idle with `lastTime = 1000`, `inProgress = false` and a stale
pending handle; calling `goToSlide(1)` (the current index) at t=2000
then sets `lastTime := 2000` and `inProgress := true` and clears the
pending handle *before* the redundancy check returns — the timestamp,
the in-progress flag and the owned-timer slot are all changed. -/
theorem idle_redundant_cex :
    (run (initialState 3) [Ev.request 1 true 1000, Ev.fire 0 1010,
        Ev.fire 1 1020, Ev.fire 2 1870]).isAnimating = false ∧
    (run (initialState 3) [Ev.request 1 true 1000, Ev.fire 0 1010,
        Ev.fire 1 1020, Ev.fire 2 1870]).currentSlideIndex = 1 ∧
    (navOf (run (initialState 3) [Ev.request 1 true 1000, Ev.fire 0 1010,
        Ev.fire 1 1020, Ev.fire 2 1870])).inProgress = false ∧
    (navOf (run (initialState 3) [Ev.request 1 true 1000, Ev.fire 0 1010,
        Ev.fire 1 1020, Ev.fire 2 1870])).lastTime = 1000 ∧
    (navOf (run (initialState 3) [Ev.request 1 true 1000, Ev.fire 0 1010,
        Ev.fire 1 1020, Ev.fire 2 1870])).pending = some 2 ∧
    (navOf (goToSlide (run (initialState 3) [Ev.request 1 true 1000,
        Ev.fire 0 1010, Ev.fire 1 1020, Ev.fire 2 1870])
        1 true 2000)).inProgress = true ∧
    (navOf (goToSlide (run (initialState 3) [Ev.request 1 true 1000,
        Ev.fire 0 1010, Ev.fire 1 1020, Ev.fire 2 1870])
        1 true 2000)).lastTime = 2000 ∧
    (navOf (goToSlide (run (initialState 3) [Ev.request 1 true 1000,
        Ev.fire 0 1010, Ev.fire 1 1020, Ev.fire 2 1870])
        1 true 2000)).pending = none := by
  decide

/-- C4 (amended): calling `goToSlide(currentIndex)` while Idle emits no
slide-change or completion event and leaves the committed index,
history, maxVisitedIndex, queue and the Animating flag unchanged — but
it is not a complete no-op: it cancels any pending navigation timer,
sets `lastTime` to the current time, and sets the in-progress flag. -/
theorem idle_redundant_amended (s : FormState) (a : Bool) (now : Nat)
    (hIdle : s.isAnimating = false)
    (hBound : s.currentSlideIndex < s.totalSlides) :
    (goToSlide s (s.currentSlideIndex : Int) a now).events = s.events ∧
    (goToSlide s (s.currentSlideIndex : Int) a now).log = s.log ∧
    (goToSlide s (s.currentSlideIndex : Int) a now).tracker = s.tracker ∧
    (goToSlide s (s.currentSlideIndex : Int) a now).currentSlideIndex =
      s.currentSlideIndex ∧
    (goToSlide s (s.currentSlideIndex : Int) a now).isAnimating = false ∧
    (navOf (goToSlide s (s.currentSlideIndex : Int) a now)).queue =
      (navOf s).queue ∧
    (navOf (goToSlide s (s.currentSlideIndex : Int) a now)).pending = none ∧
    (navOf (goToSlide s (s.currentSlideIndex : Int) a now)).lastTime = now ∧
    (navOf (goToSlide s (s.currentSlideIndex : Int) a now)).inProgress = true ∧
    (goToSlide s (s.currentSlideIndex : Int) a now).tasks =
      (clearPending s.tasks (navOf s)).1 := by
  have hb : ¬ ((s.currentSlideIndex : Int) < 0 ∨
      (s.totalSlides : Int) ≤ (s.currentSlideIndex : Int)) := by omega
  have hb' : ¬ s.totalSlides ≤ s.currentSlideIndex := by omega
  have key : goToSlide s (s.currentSlideIndex : Int) a now =
      { s with
          nav := some { (clearPending s.tasks (navOf s)).2 with
            lastTime := now, inProgress := true },
          tasks := (clearPending s.tasks (navOf s)).1 } := by
    simp [goToSlide, hb, hb', hIdle]
  have hnav : navOf (goToSlide s (s.currentSlideIndex : Int) a now) =
      { (clearPending s.tasks (navOf s)).2 with
        lastTime := now, inProgress := true } := by
    rw [key]; rfl
  refine ⟨?_, ?_, ?_, ?_, ?_, ?_, ?_, ?_, ?_, ?_⟩
  · rw [key]
  · rw [key]
  · rw [key]
  · rw [key]
  · rw [key]; exact hIdle
  · rw [hnav]; exact clearPending_queue s.tasks (navOf s)
  · rw [hnav]; exact clearPending_pending s.tasks (navOf s)
  · rw [hnav]
  · rw [hnav]
  · rw [key]

/-- Witness for `idle_redundant_amended`: redundant request to index 0 on
a fresh Idle 3-slide form. -/
theorem idle_redundant_amended_witness :
    (initialState 3).isAnimating = false ∧
    (initialState 3).currentSlideIndex < (initialState 3).totalSlides ∧
    (goToSlide (initialState 3) ((initialState 3).currentSlideIndex : Int)
        true 777).events = (initialState 3).events ∧
    (navOf (goToSlide (initialState 3)
        ((initialState 3).currentSlideIndex : Int) true 777)).inProgress =
      true := by
  have h := idle_redundant_amended (initialState 3) true 777 (by decide)
    (by decide)
  exact ⟨by decide, by decide, h.1, h.2.2.2.2.2.2.2.2.1⟩

/-- C6 (code bug): the spec requires `destroy()` to cancel all pending
navigation timers and clear the queue, but the source's `destroy` (lines
893-914) only detaches module listeners, removes classes and dispatches
the destroy event.  Concretely: admit a transition at t=1000, enqueue a
second request at t=1100 (which schedules the drain timer, handle 1);
after `destroy()` the drain timer is still scheduled, the owned pending
handle still points at it, and the queue still holds index 2. -/
theorem destroy_leaves_timer_and_queue :
    (run (initialState 3) [Ev.request 1 true 1000, Ev.request 2 true 1100,
        Ev.destroyReq]).events = [FormEvent.destroyEvent] ∧
    (navOf (run (initialState 3) [Ev.request 1 true 1000,
        Ev.request 2 true 1100, Ev.destroyReq])).queue = [2] ∧
    (navOf (run (initialState 3) [Ev.request 1 true 1000,
        Ev.request 2 true 1100, Ev.destroyReq])).pending = some 1 ∧
    (⟨1, TaskKind.drainTimer⟩ : SchedTask) ∈
      (run (initialState 3) [Ev.request 1 true 1000, Ev.request 2 true 1100,
        Ev.destroyReq]).tasks := by
  decide

/-- How one `goToSlide` call can touch the queue: either it leaves it
unchanged, or — only when the queue is below capacity and does not
already contain the index — it appends the index at the back. -/
theorem goToSlide_queue_cases (s : FormState) (i : Int) (a : Bool) (now : Nat) :
    ((navOf (goToSlide s i a now)).queue = (navOf s).queue ∧
      (navOf (goToSlide s i a now)).maxQueueSize = (navOf s).maxQueueSize) ∨
    ((navOf s).queue.length < (navOf s).maxQueueSize ∧
      ¬ i.toNat ∈ (navOf s).queue ∧
      (navOf (goToSlide s i a now)).queue = (navOf s).queue ++ [i.toNat] ∧
      (navOf (goToSlide s i a now)).maxQueueSize = (navOf s).maxQueueSize) := by
  have hq := clearPending_queue s.tasks (navOf s)
  have hm := clearPending_maxQueueSize s.tasks (navOf s)
  by_cases hb : i < 0 ∨ (s.totalSlides : Int) ≤ i
  · left
    constructor <;> rw [out_of_range_noop s i a now hb]
  · by_cases hjit : s.isAnimating = true ∧
        now - (clearPending s.tasks (navOf s)).2.lastTime <
          (clearPending s.tasks (navOf s)).2.debounceTime
    · by_cases henq : (clearPending s.tasks (navOf s)).2.queue.length <
          (clearPending s.tasks (navOf s)).2.maxQueueSize ∧
          ¬ i.toNat ∈ (clearPending s.tasks (navOf s)).2.queue
      · right
        have key : goToSlide s i a now =
            { s with
                nav := some { (clearPending s.tasks (navOf s)).2 with
                  queue := (clearPending s.tasks (navOf s)).2.queue ++ [i.toNat],
                  pending := some s.nextId },
                tasks := (clearPending s.tasks (navOf s)).1 ++
                  [⟨s.nextId, TaskKind.drainTimer⟩],
                nextId := s.nextId + 1,
                log := s.log ++ [LogEntry.queued i.toNat] } := by
          simp [goToSlide, hb, hjit, henq]
        rw [hq, hm] at henq
        refine ⟨henq.1, henq.2, ?_, ?_⟩ <;> rw [key]
        · show (clearPending s.tasks (navOf s)).2.queue ++ [i.toNat] =
            (navOf s).queue ++ [i.toNat]
          rw [hq]
        · show (clearPending s.tasks (navOf s)).2.maxQueueSize =
            (navOf s).maxQueueSize
          exact hm
      · left
        have key : goToSlide s i a now =
            { s with
                nav := some (clearPending s.tasks (navOf s)).2,
                tasks := (clearPending s.tasks (navOf s)).1 } := by
          simp [goToSlide, hb, hjit, henq]
        constructor <;> rw [key]
        · exact hq
        · exact hm
    · by_cases hred : i.toNat = s.currentSlideIndex ∧ s.isAnimating = false
      · left
        have key : goToSlide s i a now =
            { s with
                nav := some { (clearPending s.tasks (navOf s)).2 with
                  lastTime := now, inProgress := true },
                tasks := (clearPending s.tasks (navOf s)).1 } := by
          simp [goToSlide, hb, hjit, hred]
        constructor <;> rw [key]
        · exact hq
        · exact hm
      · left
        have key : goToSlide s i a now =
            { s with
                nav := some { (clearPending s.tasks (navOf s)).2 with
                  lastTime := now, inProgress := true },
                tracker := some (⟨i.toNat,
                  (if (trackerOf s).maxVisitedIndex < i.toNat then i.toNat
                    else (trackerOf s).maxVisitedIndex),
                  (trackerOf s).history ++ [i.toNat]⟩ : Tracker),
                currentSlideIndex := i.toNat,
                isAnimating := true,
                tasks := (clearPending s.tasks (navOf s)).1 ++
                  [⟨s.nextId, TaskKind.raf1 i.toNat s.currentSlideIndex a⟩],
                nextId := s.nextId + 1,
                log := s.log ++
                  [LogEntry.navStart s.currentSlideIndex i.toNat] } := by
          simp [goToSlide, hb, hjit, hred, trackerOf]
        constructor <;> rw [key]
        · exact hq
        · exact hm

/-- `goToSlide` preserves the queue invariant. -/
theorem queueInvariant_goToSlide (s : FormState) (i : Int) (a : Bool)
    (now : Nat) (h : queueInvariant s) :
    queueInvariant (goToSlide s i a now) := by
  obtain ⟨hlen, hnodup, hmax⟩ := h
  rcases goToSlide_queue_cases s i a now with ⟨h1, h2⟩ | ⟨hcap, hmem, h1, h2⟩
  · exact ⟨by rw [h1, h2]; exact hlen, by rw [h1]; exact hnodup,
      by rw [h2]; exact hmax⟩
  · refine ⟨?_, ?_, ?_⟩
    · rw [h1, h2]
      rw [List.length_append]
      simpa using hcap
    · rw [h1, ← List.concat_eq_append]
      exact hnodup.concat hmem
    · rw [h2]; exact hmax

/-- The completion handler preserves the queue invariant. -/
theorem queueInvariant_runCompletion (s : FormState) (i old : Nat)
    (h : queueInvariant s) : queueInvariant (runCompletion s i old) := by
  obtain ⟨hlen, hnodup, hmax⟩ := h
  simp only [navOf] at hlen hnodup hmax
  rcases hq : (s.nav.getD initialNavState).queue with _ | ⟨x, rest⟩
  · have key : runCompletion s i old =
        { s with
            isAnimating := false,
            nav := some { s.nav.getD initialNavState with inProgress := false },
            events := s.events ++ [FormEvent.navigationComplete old i] } := by
      simp [runCompletion, navOf, hq]
    rw [key]
    exact ⟨hlen, hnodup, hmax⟩
  · have hlen' : rest.length + 1 ≤ (s.nav.getD initialNavState).maxQueueSize := by
      rw [hq] at hlen; simpa using hlen
    have hnodup' : rest.Nodup := by
      rw [hq] at hnodup; exact hnodup.of_cons
    by_cases hne : x = s.currentSlideIndex
    · have key : runCompletion s i old =
          { s with
              isAnimating := false,
              nav := some { s.nav.getD initialNavState with
                inProgress := false, queue := rest },
              events := s.events ++ [FormEvent.navigationComplete old i] } := by
        simp [runCompletion, navOf, hq, hne]
      rw [key]
      exact ⟨by simpa using Nat.le_of_succ_le hlen', hnodup', hmax⟩
    · have key : runCompletion s i old =
          { s with
              isAnimating := false,
              nav := some { s.nav.getD initialNavState with
                inProgress := false, queue := rest },
              events := s.events ++ [FormEvent.navigationComplete old i],
              tasks := s.tasks ++ [⟨s.nextId, TaskKind.drainGo x⟩],
              nextId := s.nextId + 1 } := by
        simp [runCompletion, navOf, hq, hne]
      rw [key]
      exact ⟨by simpa using Nat.le_of_succ_le hlen', hnodup', hmax⟩

/-- The drain timer preserves the queue invariant. -/
theorem queueInvariant_runDrainTimer (s : FormState) (now : Nat)
    (h : queueInvariant s) : queueInvariant (runDrainTimer s now) := by
  obtain ⟨hlen, hnodup, hmax⟩ := h
  simp only [navOf] at hlen hnodup hmax
  rcases hq : (s.nav.getD initialNavState).queue with _ | ⟨x, rest⟩
  · have key : runDrainTimer s now = s := by
      simp [runDrainTimer, navOf, hq]
    rw [key]
    exact ⟨hlen, hnodup, hmax⟩
  · have hmid : queueInvariant
        { s with nav := some { s.nav.getD initialNavState with queue := rest } } := by
      refine ⟨?_, ?_, ?_⟩
      · show rest.length ≤ (s.nav.getD initialNavState).maxQueueSize
        rw [hq] at hlen
        simp at hlen
        omega
      · show rest.Nodup
        rw [hq] at hnodup
        exact hnodup.of_cons
      · exact hmax
    by_cases hne : x = s.currentSlideIndex
    · have key : runDrainTimer s now =
          { s with nav := some { s.nav.getD initialNavState with queue := rest } } := by
        simp [runDrainTimer, navOf, hq, hne]
      rw [key]
      exact hmid
    · have key : runDrainTimer s now =
          goToSlide
            { s with nav := some { s.nav.getD initialNavState with queue := rest } }
            (x : Int) true now := by
        simp [runDrainTimer, navOf, hq, hne]
      rw [key]
      exact queueInvariant_goToSlide _ _ _ _ hmid

/-- Every scheduled callback preserves the queue invariant. -/
theorem queueInvariant_runTask (s : FormState) (k : TaskKind) (now : Nat)
    (h : queueInvariant s) : queueInvariant (runTask s k now) := by
  obtain ⟨hlen, hnodup, hmax⟩ := h
  cases k with
  | raf1 i old a =>
      unfold runTask runRaf1
      by_cases hg : s.isAnimating = true ∧ ¬ i = s.currentSlideIndex <;>
        simp [hg] <;> exact ⟨hlen, hnodup, hmax⟩
  | raf2 i old a =>
      unfold runTask runRaf2
      exact ⟨by simpa [navOf] using hlen, by simpa [navOf] using hnodup,
        by simpa [navOf] using hmax⟩
  | completionTimer i old =>
      exact queueInvariant_runCompletion s i old ⟨hlen, hnodup, hmax⟩
  | drainTimer =>
      exact queueInvariant_runDrainTimer s now ⟨hlen, hnodup, hmax⟩
  | drainGo i =>
      exact queueInvariant_goToSlide s (i : Int) true now ⟨hlen, hnodup, hmax⟩

/-- Every external stimulus preserves the queue invariant. -/
theorem queueInvariant_step (s : FormState) (e : Ev)
    (h : queueInvariant s) : queueInvariant (step s e) := by
  cases e with
  | request i a now => exact queueInvariant_goToSlide s i a now h
  | fire tid now =>
      cases hf : s.tasks.find? (fun t => t.tid == tid) with
      | none => simpa [step, hf] using h
      | some t =>
          have key : step s (Ev.fire tid now) =
              runTask { s with tasks := s.tasks.filter (fun u => u.tid != tid) }
                t.kind now := by
            simp [step, hf]
          rw [key]
          exact queueInvariant_runTask _ t.kind now ⟨h.1, h.2.1, h.2.2⟩
  | destroyReq => exact h

/-- The queue invariant holds after every trace from a given invariant
state. -/
theorem queueInvariant_run (evs : List Ev) :
    ∀ s : FormState, queueInvariant s → queueInvariant (run s evs) := by
  induction evs with
  | nil => intro s h; exact h
  | cons e evs ih =>
      intro s h
      exact ih (step s e) (queueInvariant_step s e h)

/-- C2: At every observable instant — after any interleaving of
navigation requests, callback firings and destroy calls, starting from a
freshly initialised form of any size — the pending-navigation queue
holds at most 3 indices and never holds the same index twice.
(Structurally, `goToSlide_queue_cases` shows an index is only ever
appended when the queue length is below capacity and the index is not
already present.) -/
theorem queue_capacity_and_nodup (n : Nat) (evs : List Ev) :
    (navOf (run (initialState n) evs)).queue.length ≤ 3 ∧
    (navOf (run (initialState n) evs)).queue.Nodup := by
  have hinit : queueInvariant (initialState n) := by
    refine ⟨?_, ?_, ?_⟩ <;> simp [queueInvariant, navOf, initialState,
      initialNavState]
  have h := queueInvariant_run evs (initialState n) hinit
  exact ⟨h.2.2 ▸ h.1, h.2.1⟩

/-- C7: Scroll-alignment resolution.  (a) A non-empty per-slide override
takes precedence: the form-wide default is irrelevant, and the base
alignment is the override itself.  (b) The resolved alignment downgrades
to `start` exactly when the base alignment is `center` or `end` and the
slide's height exceeds 80% of the container height.  (c) In particular a
900px slide in a 1000px container with requested alignment `center`
resolves to `start`.  (d,e) Base alignments `start` and `nearest` are
never downgraded. -/
theorem scroll_alignment_resolution :
    (∀ sp d₁ d₂ h c, ¬ sp = "" →
      effectiveScrollPosition (some sp) d₁ = sp ∧
      resolveScrollPosition (some sp) d₁ h c =
        resolveScrollPosition (some sp) d₂ h c) ∧
    (∀ a d h c, resolveScrollPosition a d h c =
      if (effectiveScrollPosition a d = "center" ∨
          effectiveScrollPosition a d = "end") ∧ 5 * h > 4 * c
      then "start" else effectiveScrollPosition a d) ∧
    resolveScrollPosition none "center" 900 1000 = "start" ∧
    (∀ a d h c, effectiveScrollPosition a d = "start" →
      resolveScrollPosition a d h c = "start") ∧
    (∀ a d h c, effectiveScrollPosition a d = "nearest" →
      resolveScrollPosition a d h c = "nearest") := by
  refine ⟨?_, ?_, ?_, ?_, ?_⟩
  · intro sp d₁ d₂ h c hsp
    constructor
    · simp [effectiveScrollPosition, hsp]
    · simp [resolveScrollPosition, effectiveScrollPosition, hsp]
  · intro a d h c
    rfl
  · rfl
  · intro a d h c hstart
    simp [resolveScrollPosition, hstart]
  · intro a d h c hnearest
    simp [resolveScrollPosition, hnearest]

/-- Witness for `scroll_alignment_resolution`: a per-slide `end`
override beats defaults `center` and `start`, and the `start` /
`nearest` base alignments survive a tall slide. -/
theorem scroll_alignment_resolution_witness :
    (¬ "end" = "" ∧
      resolveScrollPosition (some "end") "center" 900 1000 =
        resolveScrollPosition (some "end") "start" 900 1000) ∧
    (effectiveScrollPosition none "nearest" = "nearest" ∧
      resolveScrollPosition none "nearest" 900 1000 = "nearest") := by
  constructor
  · exact ⟨by decide,
      (scroll_alignment_resolution.1 "end" "center" "start" 900 1000
        (by decide)).2⟩
  · exact ⟨by decide,
      scroll_alignment_resolution.2.2.2.2 none "nearest" 900 1000 (by decide)⟩

/-- C10: `isSlideValid(i)` returns `false` for every out-of-range index
without consulting the validator (the result is the same for any two
validators), and returns exactly the validator's verdict on slide `i`
for every in-range index. -/
theorem slide_valid_query (total : Nat) (v w : Nat → Bool) (i : Int) :
    ((i < 0 ∨ (total : Int) ≤ i) →
      isSlideValid total v i = false ∧
      isSlideValid total v i = isSlideValid total w i) ∧
    (0 ≤ i → i < (total : Int) →
      isSlideValid total v i = v i.toNat) := by
  constructor
  · intro h
    constructor <;> simp [isSlideValid, h]
  · intro h0 h1
    have h : ¬ (i < 0 ∨ (total : Int) ≤ i) := by omega
    simp [isSlideValid, h]

/-- Witness for `slide_valid_query`: a form with 3 slides, a validator
accepting exactly slide 1, queried at -1 and at 1. -/
theorem slide_valid_query_witness :
    (((-1 : Int) < 0 ∨ (3 : Int) ≤ -1) ∧
      isSlideValid 3 (fun j => j == 1) (-1) = false) ∧
    ((0 : Int) ≤ 1 ∧ (1 : Int) < 3 ∧
      isSlideValid 3 (fun j => j == 1) 1 = (fun j : Nat => j == 1) (1 : Int).toNat) := by
  constructor
  · exact ⟨by decide,
      ((slide_valid_query 3 (fun j => j == 1) (fun _ => true) (-1)).1
        (by decide)).1⟩
  · exact ⟨by decide, by decide,
      (slide_valid_query 3 (fun j => j == 1) (fun _ => true) 1).2
        (by decide) (by decide)⟩

/-- C8 counterexample: the claim describes the middle segment of the
focus set as "links and elements with a *non-negative* explicit tab
stop", but the selector `[tabindex]:not([tabindex="-1"])` also matches a
negative explicit tab stop such as `tabindex="-2"`.  On a slide whose
only element carries `tabindex="-2"` (no input, no button, no link), the
computed focus set contains that element while the claim's set is
empty. -/
theorem focus_order_cex :
    ¬ allFocusablesOf [⟨0, false, false, false, some (-2)⟩] =
      specFocusSetOf [⟨0, false, false, false, some (-2)⟩] := by
  decide

/-- C8 (amended): for every slide, the focus set computed on activation
is ordered as all form inputs in document order, then all other
focusables — links and elements with an explicit tab stop different
from -1 — that are not already among the inputs or buttons, then all
buttons; and every member of the set is made tab-reachable (tab stop
0). -/
theorem focus_order_amended (slide : List Element) :
    allFocusablesOf slide = amendedFocusSetOf slide ∧
    (∀ e ∈ slide, e ∈ allFocusablesOf slide →
      { e with tabindex := some 0 } ∈ setSlideTabbing slide) := by
  constructor
  · unfold allFocusablesOf amendedFocusSetOf uniqueOtherFocusablesOf
      otherFocusablesOf
    rw [List.filter_filter]
    refine congrArg (fun l => inputsOf slide ++ l ++ buttonsOf slide) ?_
    refine List.filter_congr ?_
    intro e _
    exact Bool.and_comm _ _
  · intro e he hmem
    unfold setSlideTabbing
    refine List.mem_map.mpr ⟨e, he, ?_⟩
    simp [hmem]

/-- Witness for `focus_order_amended`: a slide with one input and one
button; the input is in the focus set and ends up with tab stop 0. -/
theorem focus_order_amended_witness :
    ((⟨0, true, false, false, none⟩ : Element) ∈
      [(⟨0, true, false, false, none⟩ : Element), ⟨1, false, true, false, none⟩] ∧
    (⟨0, true, false, false, none⟩ : Element) ∈
      allFocusablesOf
        [(⟨0, true, false, false, none⟩ : Element), ⟨1, false, true, false, none⟩]) ∧
    ({ (⟨0, true, false, false, none⟩ : Element) with tabindex := some 0 }) ∈
      setSlideTabbing
        [(⟨0, true, false, false, none⟩ : Element), ⟨1, false, true, false, none⟩] := by
  refine ⟨⟨by decide, by decide⟩, ?_⟩
  exact (focus_order_amended
    [(⟨0, true, false, false, none⟩ : Element), ⟨1, false, true, false, none⟩]).2
    ⟨0, true, false, false, none⟩ (by decide) (by decide)

/-- C9: activation is idempotent with respect to installed keyboard
handlers.  Starting from a clean state, activating the same slide twice
leaves exactly one generation installed: the listener count equals the
count after a single activation, and none of the first generation's
handlers survives the second activation. -/
theorem activate_twice_one_generation (slide : List Element) :
    (setupActiveSlideTabbing slide
        (setupActiveSlideTabbing slide initialFocusState)).listeners.length =
      (setupActiveSlideTabbing slide initialFocusState).listeners.length ∧
    (∀ p ∈ (setupActiveSlideTabbing slide initialFocusState).listeners,
      ¬ p ∈ (setupActiveSlideTabbing slide
        (setupActiveSlideTabbing slide initialFocusState)).listeners) := by
  rcases hI : (inputsOf slide).getLast? with _ | lastInput <;>
    rcases hB : (buttonsOf slide).isEmpty with _ | _ <;>
    rcases hA : allFocusablesOf slide with _ | ⟨f, rest⟩ <;>
    simp [setupActiveSlideTabbing, setupFocusTrap, cleanupTabEventListeners,
      removeAll, removeListener, getProp, setProp, initialFocusState,
      hI, hB, hA, HandlerEntry.mk.injEq]

/-- Witness for `activate_twice_one_generation`: on a slide with one
input and one button, the first activation's tab-shortcut handler
(handler 0 on element 0) is installed after one activation and gone
after the second. -/
theorem activate_twice_one_generation_witness :
    ((⟨0, 0⟩ : HandlerEntry) ∈
      (setupActiveSlideTabbing
        [(⟨0, true, false, false, none⟩ : Element), ⟨1, false, true, false, none⟩]
        initialFocusState).listeners) ∧
    ¬ (⟨0, 0⟩ : HandlerEntry) ∈
      (setupActiveSlideTabbing
        [(⟨0, true, false, false, none⟩ : Element), ⟨1, false, true, false, none⟩]
        (setupActiveSlideTabbing
          [(⟨0, true, false, false, none⟩ : Element), ⟨1, false, true, false, none⟩]
          initialFocusState)).listeners := by
  refine ⟨by decide, ?_⟩
  exact (activate_twice_one_generation
    [(⟨0, true, false, false, none⟩ : Element), ⟨1, false, true, false, none⟩]).2
    ⟨0, 0⟩ (by decide)

end FormChippy
